import Mathlib

/-!
Verification of the schematizer SQL-entity intermediate representation.

Shallow embedding of `schematizer/models/sql_entities.py` (SQLTable,
SQLColumn, SQLAttribute, SQLColumnDataType, MetaDataKey, DbPermission)
and of `schematizer/models/avro_schema.py` (AvroSchema.to_dict).

Modelling conventions:
* Python `None`-able primitive values live in the closed inductive `PyVal`
  (the value domain the attributes, defaults and metadata use).
* A Python `set` of attributes is modelled as the list of its members in
  iteration order; set equality is extensional membership equality.
* A Python `dict` is an association list with unique keys; dict equality is
  extensional (same keys bound to the same values).
* Dynamic dispatch over the SQLColumnDataType class hierarchy is modelled by
  a `variant` tag (the concrete Python class of the instance) together with
  the overridable conversion method carried as a function field; raising is
  modelled with `Except.error`.
* `assert`-based helpers are modelled as Bool-valued functions that return
  `true` exactly when no assert fires.
-/

namespace Schematizer

/-- Closed domain of primitive Python values carried by attributes, default
values and metadata entries: None, strings, integers and booleans. -/
inductive PyVal where
  | none
  | str (s : String)
  | int (n : Int)
  | bool (b : Bool)
  deriving DecidableEq, Hashable, Repr

/-- Model of Python `str.lower` on the ASCII range, which covers everything
the code compares against (the literal string "null"). -/
def pyLower (s : String) : String := String.mk (s.data.map Char.toLower)

/-- SQLAttribute: name, optional value, and the has_value flag that tells a
valueless flag apart from one whose value is None-like. -/
structure SQLAttribute where
  name : String
  value : PyVal
  has_value : Bool
  deriving DecidableEq, Hashable, Repr

/-- SQLAttribute.__init__(name): no value, has_value False. -/
def SQLAttribute.create (name : String) : SQLAttribute :=
  { name := name, value := PyVal.none, has_value := false }

/-- SQLAttribute.create_with_value(name, value): has_value True. -/
def SQLAttribute.create_with_value (name : String) (value : PyVal) : SQLAttribute :=
  { name := name, value := value, has_value := true }

/-- SQLAttribute.__eq__: componentwise on name, value and has_value (the
isinstance test always passes between two attribute values). -/
def SQLAttribute.eq (a b : SQLAttribute) : Bool :=
  a.name == b.name && a.value == b.value && a.has_value == b.has_value

/-- SQLAttribute.__hash__: the hash of the (name, value, has_value) tuple. -/
def SQLAttribute.hashValue (a : SQLAttribute) : UInt64 :=
  hash (a.name, a.value, a.has_value)

/-- SQLAttribute.assert_equal: true exactly when every assert passes, i.e.
name, value and has_value all agree. -/
def SQLAttribute.assert_equal (a b : SQLAttribute) : Bool :=
  a.name == b.name && a.value == b.value && a.has_value == b.has_value

/-- Python set equality between two attribute sets (given as their member
lists): mutual membership under SQLAttribute.__eq__. -/
def attrSetEq (xs ys : List SQLAttribute) : Bool :=
  xs.all (fun a => ys.any (fun b => SQLAttribute.eq a b)) &&
  ys.all (fun b => xs.any (fun a => SQLAttribute.eq a b))

/-- Python `set(xs)` construction: deduplicate, keeping the first occurrence
of each member. -/
def pySetDedup (xs : List SQLAttribute) : List SQLAttribute :=
  xs.foldl (fun acc a => if acc.any (fun b => SQLAttribute.eq b a) then acc else acc ++ [a]) []

/-- Python dict equality for the string-keyed metadata dicts: extensional on
key bindings. -/
def dictEq (d1 d2 : List (String × PyVal)) : Bool :=
  d1.all (fun kv => d2.lookup kv.1 == Option.some kv.2) &&
  d2.all (fun kv => d1.lookup kv.1 == Option.some kv.2)

/-- SQLColumnDataType instance: `variant` is the concrete Python class the
instance was built from (the base class or one of the concrete SQL-type
subclasses living outside sql_entities.py); `string_to_value` is the method
subclasses override (the `_string_to_value` slot), with raising modelled as
`Except.error`; `attributes` is the instance's attribute set in iteration
order. -/
structure SQLColumnDataType where
  variant : String
  string_to_value : String → Except String PyVal
  attributes : List SQLAttribute

/-- SQLColumnDataType.attribute_exists(name): membership in the name-keyed
lookup dict, i.e. some attribute of the set carries the name. -/
def SQLColumnDataType.attribute_exists (dt : SQLColumnDataType) (name : String) : Bool :=
  dt.attributes.any (fun a => a.name == name)

/-- SQLColumnDataType.get_attribute(name): the name-keyed dict is built by
iterating the set, so a duplicated name resolves last-write-wins. -/
def SQLColumnDataType.get_attribute (dt : SQLColumnDataType) (name : String) :
    Option SQLAttribute :=
  (dt.attributes.filter (fun a => a.name == name)).getLast?

/-- SQLColumnDataType.__eq__: isinstance(other, SQLColumnDataType) — true of
every data-type value, whatever its concrete variant — followed by set
equality of the attribute sets. The concrete variant is not consulted. -/
def SQLColumnDataType.eq (a b : SQLColumnDataType) : Bool :=
  attrSetEq a.attributes b.attributes

/-- SQLColumnDataType._is_null_string: the value string is absent, or its
lowercasing is the literal "null". -/
def SQLColumnDataType.is_null_string (val_string : Option String) : Bool :=
  match val_string with
  | Option.none => true
  | Option.some s => pyLower s == "null"

/-- SQLColumnDataType.to_value: None on a null string, otherwise delegate to
the instance's `_string_to_value`. (The inner none case is unreachable: an
absent string is a null string.) -/
def SQLColumnDataType.to_value (dt : SQLColumnDataType) (val_string : Option String) :
    Except String PyVal :=
  if SQLColumnDataType.is_null_string val_string then Except.ok PyVal.none
  else
    match val_string with
    | Option.none => Except.ok PyVal.none
    | Option.some s => dt.string_to_value s

/-- An instance of the abstract base SQLColumnDataType itself: its
`_string_to_value` raises NotImplementedError("Must be implemented by
subclasses"); the attribute list is built as a Python set. -/
def SQLColumnDataType.base (attributes : List SQLAttribute) : SQLColumnDataType :=
  { variant := "SQLColumnDataType",
    string_to_value := fun _ => Except.error "Must be implemented by subclasses",
    attributes := pySetDedup attributes }

/-- SQLColumn: name, data type, optional primary-key position, nullability,
optional default, doc, attribute set (in iteration order) and the keyword
metadata dict. -/
structure SQLColumn where
  name : String
  type : SQLColumnDataType
  primary_key_order : Option Int
  is_nullable : Bool
  default_value : PyVal
  doc : Option String
  attributes : List SQLAttribute
  metadata : List (String × PyVal)

/-- SQLColumn.get_attribute(key): same last-write-wins name lookup as on the
data type. -/
def SQLColumn.get_attribute (c : SQLColumn) (key : String) : Option SQLAttribute :=
  (c.attributes.filter (fun a => a.name == key)).getLast?

/-- SQLColumn.__eq__: name, type (via SQLColumnDataType.__eq__),
primary_key_order, is_nullable, default_value, attribute set and metadata.
doc is not compared. -/
def SQLColumn.eq (a b : SQLColumn) : Bool :=
  a.name == b.name &&
  SQLColumnDataType.eq a.type b.type &&
  a.primary_key_order == b.primary_key_order &&
  a.is_nullable == b.is_nullable &&
  a.default_value == b.default_value &&
  attrSetEq a.attributes b.attributes &&
  dictEq a.metadata b.metadata

/-- SQLColumn.assert_equal: asserts the scalar fields, then izips the two
attribute sets in iteration order — truncating to the shorter one — and
asserts each pair, then asserts the metadata dicts. True when no assert
fires. -/
def SQLColumn.assert_equal (a b : SQLColumn) : Bool :=
  a.name == b.name &&
  SQLColumnDataType.eq a.type b.type &&
  a.primary_key_order == b.primary_key_order &&
  a.is_nullable == b.is_nullable &&
  a.default_value == b.default_value &&
  ((a.attributes.zip b.attributes).all (fun p => SQLAttribute.assert_equal p.1 p.2)) &&
  dictEq a.metadata b.metadata

/-- SQLTable: name, ordered column list, doc and the keyword metadata dict. -/
structure SQLTable where
  name : String
  columns : List SQLColumn
  doc : Option String
  metadata : List (String × PyVal)

/-- Python list equality on column lists: same length, and pairwise
SQLColumn.__eq__. -/
def columnsEq : List SQLColumn → List SQLColumn → Bool
  | [], [] => true
  | x :: xs, y :: ys => SQLColumn.eq x y && columnsEq xs ys
  | _, _ => false

/-- SQLTable.__eq__: name, the column lists (Python list equality, hence
positional) and metadata. doc is not compared. -/
def SQLTable.eq (a b : SQLTable) : Bool :=
  a.name == b.name && columnsEq a.columns b.columns && dictEq a.metadata b.metadata

/-- SQLTable.assert_equal: asserts the names, izips the column lists —
truncating to the shorter one — asserting each pair with
SQLColumn.assert_equal, then asserts the metadata dicts. True when no assert
fires. -/
def SQLTable.assert_equal (a b : SQLTable) : Bool :=
  a.name == b.name &&
  ((a.columns.zip b.columns).all (fun p => SQLColumn.assert_equal p.1 p.2)) &&
  dictEq a.metadata b.metadata

/-- Python truthiness of col.primary_key_order: None and 0 are falsy, every
other integer truthy. -/
def SQLColumn.has_truthy_order (c : SQLColumn) : Bool :=
  match c.primary_key_order with
  | Option.none => false
  | Option.some n => n != 0

/-- The sort key `lambda c: c.primary_key_order`, read on columns that passed
the truthiness filter (each carries an integer). -/
def orderKey (c : SQLColumn) : Int := c.primary_key_order.getD 0

/-- SQLTable.primary_keys: keep the columns whose primary_key_order is truthy
and sort them ascending by that order with Python's stable `sorted`, modelled
by insertion sort on the key. -/
def SQLTable.primary_keys (t : SQLTable) : List SQLColumn :=
  (t.columns.filter SQLColumn.has_truthy_order).insertionSort
    (fun a b => orderKey a ≤ orderKey b)

namespace MetaDataKey

/-- MetaDataKey.NAMESPACE. -/
def NAMESPACE : String := "namespace"

/-- MetaDataKey.ALIASES. -/
def ALIASES : String := "aliases"

/-- MetaDataKey.PERMISSION. -/
def PERMISSION : String := "permission"

end MetaDataKey

/-- DbPermission: a grant of a permission level to a user or group over a
named object. -/
structure DbPermission where
  object_name : String
  user_or_group_name : String
  permission : String
  for_group : Bool
  deriving DecidableEq, Repr

/-- DbPermission.__eq__: full structural equality. -/
def DbPermission.eq (a b : DbPermission) : Bool :=
  a.object_name == b.object_name &&
  a.user_or_group_name == b.user_or_group_name &&
  a.permission == b.permission &&
  a.for_group == b.for_group

/-- Value domain of the dictionary AvroSchema.to_dict builds: integers,
strings, timestamps, the None the topic key maps to when the schema has no
topic, and the nested dictionary an associated topic serialises to. -/
inductive DictVal where
  | none
  | int (n : Int)
  | str (s : String)
  | time (t : Int)
  | nested (kvs : List (String × String))
  deriving DecidableEq, Repr

/-- The Topic record an AvroSchema may be associated to. Its model (and the
`topic` relationship backref) lives outside avro_schema.py, so its serialised
form is carried opaquely as a payload. -/
structure Topic where
  payload : List (String × String)
  deriving DecidableEq, Repr

/-- Topic.to_dict, modelled opaquely: whatever dictionary the topic
serialises to. -/
def Topic.to_dict (t : Topic) : DictVal := DictVal.nested t.payload

namespace AvroSchemaStatus

/-- AvroSchemaStatus.READ_AND_WRITE. -/
def READ_AND_WRITE : String := "RW"

/-- AvroSchemaStatus.READ_ONLY. -/
def READ_ONLY : String := "R"

/-- AvroSchemaStatus.DISABLED. -/
def DISABLED : String := "Disabled"

end AvroSchemaStatus

/-- AvroSchema record: id, json-formatted schema text, topic foreign key and
the (possibly absent) associated Topic, optional base schema id, lifecycle
status and the two timestamps. -/
structure AvroSchema where
  id : Int
  avro_schema : String
  topic_id : Int
  base_schema_id : Option Int
  status : String
  created_at : Int
  updated_at : Int
  topic : Option Topic
  deriving DecidableEq, Repr

/-- AvroSchema.to_dict: a dict with schema_id, schema, status, topic (None
when the schema has no associated topic), created_at and updated_at, plus
base_schema_id only when that field is set — swagger cannot take a null
integer, so an absent base_schema_id is stripped rather than emitted. -/
def AvroSchema.to_dict (s : AvroSchema) : List (String × DictVal) :=
  let avro_schema_dict :=
    [("schema_id", DictVal.int s.id),
     ("schema", DictVal.str s.avro_schema),
     ("status", DictVal.str s.status),
     ("topic", match s.topic with
               | Option.none => DictVal.none
               | Option.some t => t.to_dict),
     ("created_at", DictVal.time s.created_at),
     ("updated_at", DictVal.time s.updated_at)]
  match s.base_schema_id with
  | Option.none => avro_schema_dict
  | Option.some k => avro_schema_dict ++ [("base_schema_id", DictVal.int k)]

/-! ## Helper lemmas -/

/-- SQLAttribute.__eq__ coincides with structural equality: it compares every
field. -/
theorem SQLAttribute.eq_iff (a b : SQLAttribute) : SQLAttribute.eq a b = true ↔ a = b := by
  cases a; cases b
  simp [SQLAttribute.eq, SQLAttribute.mk.injEq, and_assoc]

/-- Attribute-set equality is extensional membership equality. -/
theorem attrSetEq_iff (xs ys : List SQLAttribute) :
    attrSetEq xs ys = true ↔ ∀ a, (a ∈ xs ↔ a ∈ ys) := by
  simp only [attrSetEq, Bool.and_eq_true, List.all_eq_true, List.any_eq_true,
    SQLAttribute.eq_iff]
  constructor
  · rintro ⟨h1, h2⟩ a
    constructor
    · intro ha
      obtain ⟨b, hb, rfl⟩ := h1 a ha
      exact hb
    · intro ha
      obtain ⟨b, hb, rfl⟩ := h2 a ha
      exact hb
  · intro h
    exact ⟨fun a ha => ⟨a, (h a).mp ha, rfl⟩, fun a ha => ⟨a, (h a).mpr ha, rfl⟩⟩

/-! ## C1: SQLColumnDataType equality and the variant pitfall -/

/-- A concrete integer-type variant with one attribute, standing in for the
SQLColumnDataType subclasses declared outside sql_entities.py. -/
def intVariant : SQLColumnDataType :=
  { variant := "SQLIntegerType",
    string_to_value := fun s => Except.ok (PyVal.str s),
    attributes := [SQLAttribute.create "unsigned"] }

/-- A concrete varchar-type variant carrying the identical attribute set as
`intVariant` but a different concrete class. -/
def varcharVariant : SQLColumnDataType :=
  { variant := "SQLVarcharType",
    string_to_value := fun s => Except.ok (PyVal.str s),
    attributes := [SQLAttribute.create "unsigned"] }

/-- C1 counterexample: two ColumnDataType values of different concrete
variants with identical attribute sets compare equal under the code's
SQLColumnDataType.__eq__ — the isinstance check against the shared base plus
attribute-set equality never consults the variant — contradicting the claim
that such values are unequal. -/
theorem C1_different_variants_compare_equal :
    intVariant.variant ≠ varcharVariant.variant ∧
    SQLColumnDataType.eq intVariant varcharVariant = true := by
  exact ⟨by decide, rfl⟩

/-- C1 (amended): two ColumnDataType values are equal iff their attribute
sets have the same members; the concrete variant (and the conversion it
carries) plays no part, so distinct variants with identical attribute sets
are equal. -/
theorem C1_eq_iff_same_attribute_set :
    ∀ (a b : SQLColumnDataType) (v : String) (f : String → Except String PyVal),
      (SQLColumnDataType.eq a b = true ↔ ∀ x, (x ∈ a.attributes ↔ x ∈ b.attributes)) ∧
      SQLColumnDataType.eq { a with variant := v, string_to_value := f } b =
        SQLColumnDataType.eq a b := by
  intro a b v f
  exact ⟨attrSetEq_iff _ _, rfl⟩

/-! ## C2: assert_equal versus the structural-equality contract -/

/-- A concrete column used by the assert_equal counterexample. -/
def cexColumn : SQLColumn :=
  { name := "id", type := SQLColumnDataType.base [],
    primary_key_order := Option.some 1, is_nullable := false,
    default_value := PyVal.none, doc := Option.none,
    attributes := [], metadata := [] }

/-- A table with no columns. -/
def tableNoCols : SQLTable :=
  { name := "t", columns := [], doc := Option.none, metadata := [] }

/-- A table identical to `tableNoCols` except that it has one column. -/
def tableOneCol : SQLTable :=
  { name := "t", columns := [cexColumn], doc := Option.none, metadata := [] }

/-- C2 counterexample: two tables unequal under the structural-equality
contract (one has a column the other lacks) on which assert_equal completes
without raising — izip truncates the pairwise comparison to the shorter
column sequence, so the extra column is never examined. -/
theorem C2_assert_equal_passes_on_unequal_tables :
    SQLTable.eq tableNoCols tableOneCol = false ∧
    SQLTable.assert_equal tableNoCols tableOneCol = true := by
  exact ⟨rfl, rfl⟩

/-- C2 (amended): assert_equal completes without raising iff the names agree,
the metadata dicts agree, and every positionally-paired column (attribute) —
pairing truncated to the shorter sequence — passes its own assertion;
columns or attributes beyond the shorter sequence are never compared. -/
theorem C2_assert_equal_characterization :
    ∀ (t1 t2 : SQLTable) (c1 c2 : SQLColumn),
      (SQLTable.assert_equal t1 t2 = true ↔
        (t1.name = t2.name ∧
         (∀ p ∈ t1.columns.zip t2.columns, SQLColumn.assert_equal p.1 p.2 = true) ∧
         dictEq t1.metadata t2.metadata = true)) ∧
      (SQLColumn.assert_equal c1 c2 = true ↔
        (c1.name = c2.name ∧
         SQLColumnDataType.eq c1.type c2.type = true ∧
         c1.primary_key_order = c2.primary_key_order ∧
         c1.is_nullable = c2.is_nullable ∧
         c1.default_value = c2.default_value ∧
         (∀ p ∈ c1.attributes.zip c2.attributes, SQLAttribute.assert_equal p.1 p.2 = true) ∧
         dictEq c1.metadata c2.metadata = true)) := by
  intro t1 t2 c1 c2
  constructor
  · simp [SQLTable.assert_equal, Bool.and_eq_true, List.all_eq_true, and_assoc]
  · simp [SQLColumn.assert_equal, Bool.and_eq_true, List.all_eq_true, and_assoc]

/-! ## C3: primary_keys as the sorted key-bearing subsequence -/

/-- C3: on a table whose columns carry pairwise-distinct positive orders or
no order at all, primary_keys is a rearrangement of exactly the key-bearing
columns, strictly ascending in primary_key_order, and every member carries an
order. -/
theorem C3_primary_keys_sorted_filter (t : SQLTable)
    (hpos : t.columns.all (fun c => 0 < c.primary_key_order.getD 1) = true)
    (hdist : ((t.columns.filter SQLColumn.has_truthy_order).map orderKey).Nodup) :
    t.primary_keys.Perm (t.columns.filter (fun c => c.primary_key_order.isSome)) ∧
    t.primary_keys.Pairwise (fun a b => orderKey a < orderKey b) ∧
    t.primary_keys.all (fun c => c.primary_key_order.isSome) = true := by
  have hfilter : t.columns.filter SQLColumn.has_truthy_order =
      t.columns.filter (fun c => c.primary_key_order.isSome) := by
    apply List.filter_congr
    intro c hc
    have hp : 0 < c.primary_key_order.getD 1 := by
      have := List.all_eq_true.mp hpos c hc
      exact of_decide_eq_true this
    cases ho : c.primary_key_order with
    | none => simp [SQLColumn.has_truthy_order, ho]
    | some n =>
        rw [ho] at hp
        have hn : n ≠ 0 := by simp at hp; omega
        simp [SQLColumn.has_truthy_order, ho, hn]
  have hperm : t.primary_keys.Perm
      (t.columns.filter (fun c => c.primary_key_order.isSome)) := by
    rw [← hfilter]
    exact List.perm_insertionSort _ _
  have hsorted : t.primary_keys.Pairwise (fun a b => orderKey a ≤ orderKey b) := by
    haveI : IsTotal SQLColumn (fun a b => orderKey a ≤ orderKey b) :=
      ⟨fun a b => le_total _ _⟩
    haveI : IsTrans SQLColumn (fun a b => orderKey a ≤ orderKey b) :=
      ⟨fun _ _ _ => le_trans⟩
    exact List.sorted_insertionSort _ _
  have hndmap : (t.primary_keys.map orderKey).Nodup := by
    have h0 := (List.perm_insertionSort (fun a b => orderKey a ≤ orderKey b)
      (t.columns.filter SQLColumn.has_truthy_order)).map orderKey
    exact h0.nodup_iff.mpr hdist
  have hne : t.primary_keys.Pairwise (fun a b => orderKey a ≠ orderKey b) :=
    List.pairwise_map.mp hndmap
  refine ⟨hperm, ?_, ?_⟩
  · exact (hsorted.and hne).imp (fun h => lt_of_le_of_ne h.1 h.2)
  · apply List.all_eq_true.mpr
    intro c hc
    have hmem := hperm.subset hc
    exact (List.mem_filter.mp hmem).2

/-- A key-order test column: only the name and the primary-key position
vary. -/
def pkCol (nm : String) (ord : Option Int) : SQLColumn :=
  { name := nm, type := SQLColumnDataType.base [], primary_key_order := ord,
    is_nullable := true, default_value := PyVal.none, doc := Option.none,
    attributes := [], metadata := [] }

/-- The spec's example table: column orders 2, absent, 1, absent, 3. -/
def pkTable : SQLTable :=
  { name := "tbl",
    columns := [pkCol "a" (Option.some 2), pkCol "b" Option.none,
                pkCol "c" (Option.some 1), pkCol "d" Option.none,
                pkCol "e" (Option.some 3)],
    doc := Option.none, metadata := [] }

/-- C3 witness: the theorem applied to the example table with orders
2, absent, 1, absent, 3. -/
theorem C3_primary_keys_sorted_filter_witness :
    pkTable.primary_keys.Perm
      (pkTable.columns.filter (fun c => c.primary_key_order.isSome)) ∧
    pkTable.primary_keys.Pairwise (fun a b => orderKey a < orderKey b) ∧
    pkTable.primary_keys.all (fun c => c.primary_key_order.isSome) = true :=
  C3_primary_keys_sorted_filter pkTable (by decide) (by decide)

/-! ## C9: the primary-key filter is on truthiness -/

/-- Turn a zero primary_key_order into an absent one; leave every other
column unchanged. -/
def zeroOrderToNone (c : SQLColumn) : SQLColumn :=
  if c.primary_key_order == Option.some 0 then { c with primary_key_order := Option.none }
  else c

/-- Rewriting a zero order to an absent one does not change the column's
truthiness. -/
theorem zeroOrderToNone_truthy (c : SQLColumn) :
    SQLColumn.has_truthy_order (zeroOrderToNone c) = SQLColumn.has_truthy_order c := by
  cases ho : c.primary_key_order with
  | none => simp [zeroOrderToNone, SQLColumn.has_truthy_order, ho]
  | some n =>
      by_cases hn : n = 0
      · subst hn
        simp [zeroOrderToNone, SQLColumn.has_truthy_order, ho]
      · simp [zeroOrderToNone, SQLColumn.has_truthy_order, ho, hn]

/-- A column that passes the truthiness filter is untouched by
zeroOrderToNone. -/
theorem zeroOrderToNone_eq_self (c : SQLColumn)
    (h : SQLColumn.has_truthy_order c = true) : zeroOrderToNone c = c := by
  cases ho : c.primary_key_order with
  | none => simp [SQLColumn.has_truthy_order, ho] at h
  | some n =>
      have hn : n ≠ 0 := by
        simp [SQLColumn.has_truthy_order, ho] at h
        exact h
      simp [zeroOrderToNone, ho, hn]

/-- The truthiness filter sees through zeroOrderToNone. -/
theorem filter_truthy_map_zeroOrderToNone (l : List SQLColumn) :
    (l.map zeroOrderToNone).filter SQLColumn.has_truthy_order =
      l.filter SQLColumn.has_truthy_order := by
  induction l with
  | nil => rfl
  | cons c cs ih =>
      simp only [List.map_cons, List.filter_cons, zeroOrderToNone_truthy, ih]
      split
      · rename_i h
        rw [zeroOrderToNone_eq_self c h]
      · rfl

/-- C9: a zero (falsy) primary_key_order is excluded from primary_keys
exactly as if the column had no primary-key position — rewriting every zero
order to an absent one leaves primary_keys unchanged — and every column of
primary_keys has a truthy (present and nonzero) order. -/
theorem C9_zero_order_excluded_like_none :
    ∀ (t : SQLTable),
      SQLTable.primary_keys { t with columns := t.columns.map zeroOrderToNone } =
        t.primary_keys ∧
      t.primary_keys.all SQLColumn.has_truthy_order = true := by
  intro t
  constructor
  · simp only [SQLTable.primary_keys, filter_truthy_map_zeroOrderToNone]
  · apply List.all_eq_true.mpr
    intro c hc
    have hmem := (List.perm_insertionSort (fun a b => orderKey a ≤ orderKey b)
      (t.columns.filter SQLColumn.has_truthy_order)).subset hc
    exact (List.mem_filter.mp hmem).2

/-! ## C4: to_value null handling and delegation -/

/-- C4: to_value yields the null value None on an absent input or one that
case-insensitively equals the literal "null", and on every other string it
returns exactly what the variant-specific conversion returns. -/
theorem C4_to_value_null_or_delegate :
    ∀ (dt : SQLColumnDataType) (s : String),
      dt.to_value Option.none = Except.ok PyVal.none ∧
      (pyLower s = "null" → dt.to_value (Option.some s) = Except.ok PyVal.none) ∧
      (pyLower s ≠ "null" → dt.to_value (Option.some s) = dt.string_to_value s) := by
  intro dt s
  refine ⟨rfl, ?_, ?_⟩
  · intro h
    simp [SQLColumnDataType.to_value, SQLColumnDataType.is_null_string, h]
  · intro h
    simp [SQLColumnDataType.to_value, SQLColumnDataType.is_null_string, h]

/-! ## C5: the abstract base conversion is an error -/

/-- C5: calling the conversion capability through the abstract base
SQLColumnDataType itself, on any non-null string, fails with the
NotImplementedError the base raises instead of returning a value. -/
theorem C5_base_conversion_errors (attrs : List SQLAttribute) (s : String)
    (h : SQLColumnDataType.is_null_string (Option.some s) = false) :
    (SQLColumnDataType.base attrs).to_value (Option.some s) =
      Except.error "Must be implemented by subclasses" := by
  simp [SQLColumnDataType.to_value, h, SQLColumnDataType.base]

/-- C5 witness: the base data type rejects the concrete non-null string
"123". -/
theorem C5_base_conversion_errors_witness :
    (SQLColumnDataType.base []).to_value (Option.some "123") =
      Except.error "Must be implemented by subclasses" :=
  C5_base_conversion_errors [] "123" (by decide)

/-! ## C6: equality fields, doc excluded -/

/-- C6: column equality is exactly componentwise on name, data type,
primary_key_order, is_nullable, default_value, attribute set and metadata,
and table equality exactly on name, column list and metadata; replacing
either doc never changes the outcome. -/
theorem C6_equality_fields_exclude_doc :
    ∀ (c1 c2 : SQLColumn) (t1 t2 : SQLTable) (d1 d2 : Option String),
      SQLColumn.eq { c1 with doc := d1 } { c2 with doc := d2 } = SQLColumn.eq c1 c2 ∧
      SQLTable.eq { t1 with doc := d1 } { t2 with doc := d2 } = SQLTable.eq t1 t2 ∧
      (SQLColumn.eq c1 c2 = true ↔
        (c1.name = c2.name ∧
         SQLColumnDataType.eq c1.type c2.type = true ∧
         c1.primary_key_order = c2.primary_key_order ∧
         c1.is_nullable = c2.is_nullable ∧
         c1.default_value = c2.default_value ∧
         attrSetEq c1.attributes c2.attributes = true ∧
         dictEq c1.metadata c2.metadata = true)) ∧
      (SQLTable.eq t1 t2 = true ↔
        (t1.name = t2.name ∧
         columnsEq t1.columns t2.columns = true ∧
         dictEq t1.metadata t2.metadata = true)) := by
  intro c1 c2 t1 t2 d1 d2
  refine ⟨rfl, rfl, ?_, ?_⟩
  · simp [SQLColumn.eq, Bool.and_eq_true, and_assoc]
  · simp [SQLTable.eq, Bool.and_eq_true, and_assoc]

/-! ## C7: column order matters for table equality -/

/-- C7: two tables with the same name and metadata whose column lists hold
the same columns in a different order — here reversed, so that the lists are
not positionally equal — are not equal. -/
theorem C7_column_order_matters (t1 t2 : SQLTable)
    (hname : t1.name = t2.name)
    (hmeta : dictEq t1.metadata t2.metadata = true)
    (hrev : t2.columns = t1.columns.reverse)
    (hdiff : columnsEq t1.columns t2.columns = false) :
    SQLTable.eq t1 t2 = false := by
  simp [SQLTable.eq, hdiff]

/-- First of the two distinct columns for the order-sensitivity witness. -/
def colA : SQLColumn :=
  { name := "a", type := SQLColumnDataType.base [],
    primary_key_order := Option.none, is_nullable := true,
    default_value := PyVal.none, doc := Option.none,
    attributes := [], metadata := [] }

/-- Second of the two distinct columns for the order-sensitivity witness. -/
def colB : SQLColumn :=
  { name := "b", type := SQLColumnDataType.base [],
    primary_key_order := Option.none, is_nullable := true,
    default_value := PyVal.none, doc := Option.none,
    attributes := [], metadata := [] }

/-- A table holding colA then colB. -/
def tableAB : SQLTable :=
  { name := "t", columns := [colA, colB], doc := Option.none,
    metadata := [("namespace", PyVal.str "ns")] }

/-- The same table with the column order reversed. -/
def tableBA : SQLTable :=
  { name := "t", columns := [colB, colA], doc := Option.none,
    metadata := [("namespace", PyVal.str "ns")] }

/-- C7 witness: the reversed-column tables are not equal. -/
theorem C7_column_order_matters_witness : SQLTable.eq tableAB tableBA = false :=
  C7_column_order_matters tableAB tableBA rfl rfl rfl rfl

/-! ## C8: attribute equality and hash agreement -/

/-- C8: two attributes are equal iff name, value and has_value are all
equal, and equal attributes have equal hashes. -/
theorem C8_attribute_eq_iff_and_hash :
    ∀ (a b : SQLAttribute),
      (SQLAttribute.eq a b = true ↔
        (a.name = b.name ∧ a.value = b.value ∧ a.has_value = b.has_value)) ∧
      (SQLAttribute.eq a b = true →
        SQLAttribute.hashValue a = SQLAttribute.hashValue b) := by
  intro a b
  have hiff : SQLAttribute.eq a b = true ↔
      (a.name = b.name ∧ a.value = b.value ∧ a.has_value = b.has_value) := by
    simp [SQLAttribute.eq, Bool.and_eq_true, and_assoc]
  refine ⟨hiff, fun he => ?_⟩
  obtain ⟨h1, h2, h3⟩ := hiff.mp he
  simp [SQLAttribute.hashValue, h1, h2, h3]

/-! ## C10: AvroSchema.to_dict key set -/

/-- C10: to_dict always carries schema_id, schema, status, topic, created_at
and updated_at — the topic key holding None exactly when the schema has no
associated topic — and carries base_schema_id iff base_schema_id is set. -/
theorem C10_to_dict_keys :
    ∀ (s : AvroSchema),
      s.to_dict.lookup "schema_id" = Option.some (DictVal.int s.id) ∧
      s.to_dict.lookup "schema" = Option.some (DictVal.str s.avro_schema) ∧
      s.to_dict.lookup "status" = Option.some (DictVal.str s.status) ∧
      s.to_dict.lookup "topic" = Option.some
        (match s.topic with
         | Option.none => DictVal.none
         | Option.some t => t.to_dict) ∧
      s.to_dict.lookup "created_at" = Option.some (DictVal.time s.created_at) ∧
      s.to_dict.lookup "updated_at" = Option.some (DictVal.time s.updated_at) ∧
      ((s.to_dict.lookup "base_schema_id").isSome = true ↔
        s.base_schema_id ≠ Option.none) := by
  intro s
  cases hb : s.base_schema_id with
  | none =>
      refine ⟨?_, ?_, ?_, ?_, ?_, ?_, ?_⟩ <;>
        simp [AvroSchema.to_dict, hb, List.lookup]
  | some k =>
      refine ⟨?_, ?_, ?_, ?_, ?_, ?_, ?_⟩ <;>
        simp [AvroSchema.to_dict, hb, List.lookup]

end Schematizer
